import Mathlib

/-
Shallow embedding of the Hyperphonic media player core (src/src/App.tsx and
the Visualizer component).  React state hooks become fields of a `World`
record; each event handler becomes a pure function `World → World`.  Calls
to the media/DOM layer (play, pause, requestFullscreen, exitFullscreen,
console.error, thrown rejections, URL revocations) are recorded in effect
fields of the same record.  Rational numbers stand for the JS numbers that
hold times and volumes; the claims only involve comparisons and clamping,
where ℚ and IEEE doubles agree.
-/

namespace Hyperphonic

/-- Track.type in App.tsx: the string union audio | video. -/
inductive MediaKind where
  | audio
  | video
deriving DecidableEq, Repr

/-- The Track interface of App.tsx (id, name, url, type, duration?). -/
structure Track where
  id : String
  name : String
  url : String
  kind : MediaKind
  duration : Option ℚ := none
deriving DecidableEq, Repr

/-- The volumeIndicator state object of App.tsx: value and visible. -/
structure VolumeIndicator where
  value : ℚ
  visible : Bool
deriving DecidableEq, Repr

/--
The component state of App.tsx plus the pieces of the browser environment
its handlers read and write:

* `tracks` .. `showControls` are the useState hooks, in source order;
* `mediaPresent` models whether mediaRef.current is non-null, `mediaTime`
  the media element currentTime property, `osFullscreen` whether
  document.fullscreenElement is non-null, `ctxSuspended` whether the
  AudioContext state equals the suspended state;
* `playCmds`, `pauseCmds`, `enterFsReqs`, `exitFsReqs` count the commands
  issued to the media element and to the Fullscreen API;
* `logged` records console.error calls from .catch handlers, `thrown`
  records rejections that escape to the caller, and `released` records
  URL.revokeObjectURL calls.  App.tsx never calls URL.revokeObjectURL, so
  no handler below appends to `released`.
-/
structure World where
  tracks : List Track
  currentTrackIndex : Int
  isPlaying : Bool
  volume : ℚ
  currentTime : ℚ
  duration : ℚ
  isMuted : Bool
  showPlaylist : Bool
  volumeIndicator : VolumeIndicator
  isFullscreen : Bool
  isVideoOnly : Bool
  showControls : Bool
  mediaPresent : Bool
  mediaTime : ℚ
  osFullscreen : Bool
  ctxSuspended : Bool
  playCmds : Nat
  pauseCmds : Nat
  enterFsReqs : Nat
  exitFsReqs : Nat
  logged : List String
  thrown : List String
  released : List String
deriving DecidableEq, Repr

/--
JavaScript Array.prototype.findIndex: index of the first element satisfying
the predicate, or -1 when none does.  Used by removeTrack in App.tsx.
-/
def findIndex {α : Type} (p : α → Bool) : List α → Int
  | [] => -1
  | a :: l =>
    if p a then 0
    else if findIndex p l = -1 then -1 else findIndex p l + 1

/--
The name cleanup in handleFileChange and handleDrop:
file.name.replace of the pattern dot-then-nonempty-run-of-chars-other-than-
slash-or-dot anchored at the end, with the empty string.  It drops a final
extension when one exists.
-/
def stripExt (s : String) : String :=
  let rev := s.data.reverse
  let ext := rev.takeWhile (fun c => c != '.' && c != '/')
  match rev.drop ext.length with
  | '.' :: rem => if ext.isEmpty then s else ⟨rem.reverse⟩
  | _ => s

/--
One File object as the ingestion handlers see it.  `mediaType` is the
declared MIME type (file.type).  `id` stands for the random id the code
draws from Math.random, and `url` for the handle URL.createObjectURL
returns; both are nondeterministic outputs of the environment, so the
embedding takes them as inputs.
-/
structure FileDesc where
  id : String
  name : String
  mediaType : String
  url : String
deriving DecidableEq, Repr

/-- Whether the first character list is an initial segment of the second. -/
def listPre : List Char → List Char → Bool
  | [], _ => true
  | _ :: _, [] => false
  | a :: as, b :: bs => a == b && listPre as bs

/-- String.prototype.startsWith, on the underlying character lists. -/
def strStartsWith (s pre : String) : Bool :=
  listPre pre.data s.data

/-- The filter in handleFileChange and handleDrop: declared type starts with audio/ or video/. -/
def acceptFile (f : FileDesc) : Bool :=
  strStartsWith f.mediaType "audio/" || strStartsWith f.mediaType "video/"

/-- The map in handleFileChange and handleDrop, building a Track from an accepted File. -/
def toTrack (f : FileDesc) : Track :=
  { id := f.id
    name := stripExt f.name
    url := f.url
    kind := if strStartsWith f.mediaType "video/" then .video else .audio }

/-- The shared filter-then-map pipeline of handleFileChange and handleDrop. -/
def ingest (files : List FileDesc) : List Track :=
  (files.filter acceptFile).map toTrack

/--
handleFileChange (App.tsx lines 89-106): appends the accepted tracks and,
when currentTrackIndex was -1, sets it to 0 — even when zero files were
accepted (there is no guard on newTracks.length here).
-/
def handleFileChange (files : List FileDesc) (w : World) : World :=
  let newTracks := ingest files
  let w1 := { w with tracks := w.tracks ++ newTracks }
  if w.currentTrackIndex = -1 then { w1 with currentTrackIndex := 0 } else w1

/--
handleDrop (App.tsx lines 265-285): same pipeline as handleFileChange, but
the state updates are guarded by newTracks.length > 0.
-/
def handleDrop (files : List FileDesc) (w : World) : World :=
  let newTracks := ingest files
  if newTracks.length > 0 then
    let w1 := { w with tracks := w.tracks ++ newTracks }
    if w.currentTrackIndex = -1 then { w1 with currentTrackIndex := 0 } else w1
  else w

/--
removeTrack (App.tsx lines 118-128).  findIndex yields -1 when the id is
absent.  The branch on index versus currentTrackIndex runs before the
filter; the filter drops every track whose id equals the argument.  No
resource handle is revoked anywhere in the function.
-/
def removeTrack (id : String) (w : World) : World :=
  let index := findIndex (fun t => t.id == id) w.tracks
  let w1 :=
    if index = w.currentTrackIndex then
      { w with isPlaying := false, currentTrackIndex := -1 }
    else if index < w.currentTrackIndex then
      { w with currentTrackIndex := w.currentTrackIndex - 1 }
    else w
  { w1 with tracks := w1.tracks.filter (fun t => t.id != id) }

/--
togglePlay (App.tsx lines 71-87).  `resumeFails` models the AudioContext
resume promise rejecting (that await is not wrapped, so the rejection
escapes to the caller and no state is touched); `playFails` models the play
promise rejecting, which the code catches with console.error and nothing
else — setIsPlaying has already flipped the flag and is not rolled back.
-/
def togglePlay (resumeFails playFails : Bool) (w : World) : World :=
  if w.mediaPresent = false ∨ w.tracks.length = 0 then w
  else if w.ctxSuspended ∧ resumeFails then
    { w with thrown := w.thrown ++ ["resume rejected"] }
  else
    let w1 := { w with ctxSuspended := false }
    if w1.isPlaying then
      let w2 := { w1 with pauseCmds := w1.pauseCmds + 1 }
      { w2 with isPlaying := false }
    else
      let w2 :=
        if w1.currentTrackIndex = -1 ∧ 0 < w1.tracks.length then
          { w1 with currentTrackIndex := 0 }
        else w1
      let w3 := { w2 with playCmds := w2.playCmds + 1 }
      let w4 :=
        if playFails then { w3 with logged := w3.logged ++ ["play rejected"] }
        else w3
      { w4 with isPlaying := true }

/--
seek (App.tsx lines 153-157): writes the clamp of mediaTime + delta into
[0, duration] back to the media element currentTime property.  The React
currentTime state follows later through the onTimeUpdate callback, which is
outside this step.
-/
def seek (delta : ℚ) (w : World) : World :=
  if w.mediaPresent then
    { w with mediaTime := min w.duration (max 0 (w.mediaTime + delta)) }
  else w

/--
The progress slider onChange handler (App.tsx lines 459-463): parses the
value, stores it in currentTime unclamped, and writes it to the media
element when present.
-/
def progressChange (time : ℚ) (w : World) : World :=
  let w1 := { w with currentTime := time }
  if w1.mediaPresent then { w1 with mediaTime := time } else w1

/--
toggleFullscreen (App.tsx lines 159-169).  `requestSucceeds` models the
Fullscreen API promise: on rejection only console.error runs.  The state
setters run synchronously right after issuing the request, before the
promise settles, so they apply on both outcomes.
-/
def toggleFullscreen (requestSucceeds : Bool) (w : World) : World :=
  if w.osFullscreen = false then
    let w1 := { w with enterFsReqs := w.enterFsReqs + 1 }
    let w2 :=
      if requestSucceeds then { w1 with osFullscreen := true }
      else { w1 with logged := w1.logged ++ ["requestFullscreen rejected"] }
    { w2 with isFullscreen := true, isVideoOnly := false, showControls := false }
  else
    let w1 := { w with exitFsReqs := w.exitFsReqs + 1 }
    let w2 :=
      if requestSucceeds then { w1 with osFullscreen := false }
      else { w1 with logged := w1.logged ++ ["exitFullscreen rejected"] }
    { w2 with isFullscreen := false }

/--
toggleVideoOnly, the cinema-mode toggle (App.tsx lines 171-187), with the
same promise convention as toggleFullscreen.
-/
def toggleVideoOnly (requestSucceeds : Bool) (w : World) : World :=
  if w.osFullscreen = false then
    let w1 := { w with enterFsReqs := w.enterFsReqs + 1 }
    let w2 :=
      if requestSucceeds then { w1 with osFullscreen := true }
      else { w1 with logged := w1.logged ++ ["requestFullscreen rejected"] }
    { w2 with isVideoOnly := true, isFullscreen := true, showControls := false }
  else
    if w.isVideoOnly then
      let w1 := { w with isVideoOnly := false, isFullscreen := false }
      let w2 := { w1 with exitFsReqs := w1.exitFsReqs + 1 }
      if requestSucceeds then { w2 with osFullscreen := false }
      else { w2 with logged := w2.logged ++ ["exitFullscreen rejected"] }
    else
      { w with isVideoOnly := true, showControls := false }

/--
The fullscreenchange listener (App.tsx lines 242-248): mirrors the OS
state into isFullscreen and clears isVideoOnly when OS fullscreen ended.
-/
def handleFullscreenChange (w : World) : World :=
  let w1 := { w with isFullscreen := w.osFullscreen }
  if w.osFullscreen = false then { w1 with isVideoOnly := false } else w1

/--
The key list at the top of handleKeyDown (App.tsx line 191) on which
e.preventDefault() is called.
-/
def preventDefaultKeys : List String :=
  [" ", "ArrowUp", "ArrowDown", "ArrowLeft", "ArrowRight"]

/-- Whether handleKeyDown calls e.preventDefault() for a given key value. -/
def handleKeyDownPreventsDefault (key : String) : Bool :=
  preventDefaultKeys.contains key

/--
The audio analysis graph built by the mount effect (App.tsx lines 52-67):
an AudioContext, an AnalyserNode with fftSize 256, and a media-element
source wired source → analyser → destination.  Only the fftSize matters to
the claims; frequencyBinCount is the Web Audio derived property
fftSize / 2.
-/
structure AudioGraph where
  fftSize : Nat
deriving DecidableEq, Repr

/-- The Web Audio frequencyBinCount property: half the fftSize. -/
def AudioGraph.frequencyBinCount (g : AudioGraph) : Nat :=
  g.fftSize / 2

/--
The mount effect guard (App.tsx line 53): build the graph only when the
media element exists and no AudioContext has been stored yet; otherwise
leave the stored graph untouched.
-/
def initAudioGraph (mediaPresent : Bool) (g : Option AudioGraph) : Option AudioGraph :=
  if mediaPresent && g.isNone then some { fftSize := 256 } else g

/-- The initial component state (useState defaults), with a media element present. -/
def emptyWorld : World :=
  { tracks := []
    currentTrackIndex := -1
    isPlaying := false
    volume := 7/10
    currentTime := 0
    duration := 0
    isMuted := false
    showPlaylist := true
    volumeIndicator := { value := 7/10, visible := false }
    isFullscreen := false
    isVideoOnly := false
    showControls := true
    mediaPresent := true
    mediaTime := 0
    osFullscreen := false
    ctxSuspended := false
    playCmds := 0
    pauseCmds := 0
    enterFsReqs := 0
    exitFsReqs := 0
    logged := []
    thrown := []
    released := [] }

/-- A sample audio track. -/
def trackA : Track :=
  { id := "a", name := "A", url := "blob-a", kind := .audio }

/-- A sample video track. -/
def trackB : Track :=
  { id := "b", name := "B", url := "blob-b", kind := .video }

/-- A file whose declared media type is neither audio nor video. -/
def textFile : FileDesc :=
  { id := "x1", name := "notes.txt", mediaType := "text/plain", url := "blob-x1" }

/-- State with one track, active and playing. -/
def worldA : World :=
  { emptyWorld with tracks := [trackA], currentTrackIndex := 0, isPlaying := true }

/-- State with one track, active and paused. -/
def worldPaused : World :=
  { emptyWorld with tracks := [trackA], currentTrackIndex := 0, isPlaying := false }

/--
Claim C1: the invariant -1 ≤ activeIndex < playlist.length is supposed to
hold after every addTracks/removeTrack sequence, including an ingestion
call whose files are all rejected.  It does not: from the empty playlist,
handleFileChange with a single text/plain file accepts nothing yet still
sets currentTrackIndex to 0, leaving activeIndex = 0 against a playlist of
length 0 (handleDrop guards this case; handleFileChange lacks the guard).
-/
theorem c1_invariant_broken_by_handleFileChange :
    (handleFileChange [textFile] emptyWorld).currentTrackIndex = 0 ∧
    (handleFileChange [textFile] emptyWorld).tracks = [] ∧
    ¬ ((handleFileChange [textFile] emptyWorld).currentTrackIndex <
        ((handleFileChange [textFile] emptyWorld).tracks.length : Int)) := by
  decide

/--
Claim C2: removeTrack is supposed to be a no-op on an unknown id and to
release the removed track handle exactly once.  Neither holds: with
playlist [A] and activeIndex 0, removeTrack of an absent id gets
findIndex = -1, which falls into the index < currentTrackIndex branch and
drags activeIndex to -1 while the playlist keeps the track and isPlaying
stays true; and removing the active track revokes no object URL at all.
-/
theorem c2_removeTrack_violations :
    (removeTrack "zzz" worldA).currentTrackIndex = -1 ∧
    (removeTrack "zzz" worldA).tracks = [trackA] ∧
    (removeTrack "zzz" worldA).isPlaying = true ∧
    (removeTrack "a" worldA).released = [] := by
  decide

/--
Claim C8 counterexample: the claim says all five shortcut keys suppress
their default browser action, but handleKeyDown only calls preventDefault
for keys in its explicit list, which omits Enter (and f/F).
-/
theorem c8_enter_not_prevented :
    handleKeyDownPreventsDefault "Enter" = false ∧
    handleKeyDownPreventsDefault "f" = false ∧
    handleKeyDownPreventsDefault "F" = false := by
  decide

/--
Claim C8 amended: Space and the four arrow keys suppress their default
browser action; the F and Enter shortcuts do not.
-/
theorem c8_prevented_keys_exactly :
    handleKeyDownPreventsDefault " " = true ∧
    handleKeyDownPreventsDefault "ArrowUp" = true ∧
    handleKeyDownPreventsDefault "ArrowDown" = true ∧
    handleKeyDownPreventsDefault "ArrowLeft" = true ∧
    handleKeyDownPreventsDefault "ArrowRight" = true ∧
    handleKeyDownPreventsDefault "f" = false ∧
    handleKeyDownPreventsDefault "F" = false ∧
    handleKeyDownPreventsDefault "Enter" = false := by
  decide

/-- State with one active track, paused, and a known media duration. -/
def worldDur : World :=
  { emptyWorld with tracks := [trackA], currentTrackIndex := 0,
                    duration := 10, mediaTime := 3 }

/--
Claim C3 counterexample: from a paused active track, togglePlay whose play
command fails asynchronously leaves isPlaying = true — the state does not
revert to Paused as the claim asserts; the failure is only logged.
-/
theorem c3_no_revert_on_play_failure :
    (togglePlay false true worldPaused).isPlaying = true ∧
    (togglePlay false true worldPaused).logged = ["play rejected"] ∧
    (togglePlay false true worldPaused).thrown = [] := by
  decide

/--
Claim C3 amended: when togglePlay issues a play command that fails
asynchronously, the failure is caught and logged and nothing is thrown to
the caller, but the controller state does not revert to Paused — isPlaying
remains true, recording the intended state.
-/
theorem c3_play_failure_caught_and_logged (w : World)
    (hm : w.mediaPresent = true) (ht : w.tracks.length ≠ 0)
    (hp : w.isPlaying = false) (hc : w.ctxSuspended = false) :
    (togglePlay false true w).isPlaying = true ∧
    (togglePlay false true w).logged = w.logged ++ ["play rejected"] ∧
    (togglePlay false true w).thrown = w.thrown ∧
    (togglePlay false true w).playCmds = w.playCmds + 1 := by
  by_cases hi : w.currentTrackIndex = -1 ∧ 0 < w.tracks.length <;>
    simp [togglePlay, hm, ht, hp, hc, hi]

/-- Witness for the amended C3 theorem at the concrete paused state. -/
theorem c3_witness :
    worldPaused.mediaPresent = true ∧ worldPaused.tracks.length ≠ 0 ∧
    worldPaused.isPlaying = false ∧ worldPaused.ctxSuspended = false ∧
    ((togglePlay false true worldPaused).isPlaying = true ∧
     (togglePlay false true worldPaused).logged = worldPaused.logged ++ ["play rejected"] ∧
     (togglePlay false true worldPaused).thrown = worldPaused.thrown ∧
     (togglePlay false true worldPaused).playCmds = worldPaused.playCmds + 1) :=
  ⟨rfl, by decide, rfl, rfl,
   c3_play_failure_caught_and_logged worldPaused rfl (by decide) rfl rfl⟩

/--
Claim C4 counterexample: the progress-slider seekTo handler stores the
incoming value without clamping, so with duration 10 an input of 20 leaves
currentTime = 20 > duration.
-/
theorem c4_seekTo_not_clamped :
    (progressChange 20 worldDur).currentTime = 20 ∧
    (progressChange 20 worldDur).duration = 10 ∧
    ¬ ((progressChange 20 worldDur).currentTime ≤ (progressChange 20 worldDur).duration) := by
  refine ⟨rfl, rfl, ?_⟩
  decide

/--
Claim C4 amended: seekBy (the seek function) clamps the media time into
[0, duration] and leaves isPlaying and duration unchanged; the slider
seekTo handler also leaves isPlaying unchanged but stores the raw input
value without clamping (range enforcement is left to the slider element).
-/
theorem c4_seek_clamps_seekTo_does_not (w : World) (delta t : ℚ)
    (hm : w.mediaPresent = true) (hd : 0 ≤ w.duration) :
    (0 ≤ (seek delta w).mediaTime ∧
     (seek delta w).mediaTime ≤ (seek delta w).duration ∧
     (seek delta w).duration = w.duration ∧
     (seek delta w).isPlaying = w.isPlaying) ∧
    ((progressChange t w).isPlaying = w.isPlaying ∧
     (progressChange t w).currentTime = t) := by
  constructor
  · refine ⟨?_, ?_, ?_, ?_⟩
    · simp only [seek, hm, if_true]
      exact le_min hd (le_max_left 0 _)
    · simp only [seek, hm, if_true]
      exact min_le_left _ _
    · simp [seek, hm]
    · simp [seek, hm]
  · constructor
    · simp [progressChange, hm]
    · simp [progressChange, hm]

/-- Witness for the amended C4 theorem at a concrete state and inputs. -/
theorem c4_witness :
    worldDur.mediaPresent = true ∧ 0 ≤ worldDur.duration ∧
    ((0 ≤ (seek (-100) worldDur).mediaTime ∧
      (seek (-100) worldDur).mediaTime ≤ (seek (-100) worldDur).duration ∧
      (seek (-100) worldDur).duration = worldDur.duration ∧
      (seek (-100) worldDur).isPlaying = worldDur.isPlaying) ∧
     ((progressChange 20 worldDur).isPlaying = worldDur.isPlaying ∧
      (progressChange 20 worldDur).currentTime = 20)) :=
  ⟨rfl, by decide,
   c4_seek_clamps_seekTo_does_not worldDur (-100) 20 rfl (by decide)⟩

/--
Claim C5 counterexample: from Normal with OS fullscreen inactive, a
toggleFullscreen whose OS request is rejected still flips isFullscreen to
true while document.fullscreenElement stays null — the view-mode state is
not left unchanged, and Fullscreen is observed while OS fullscreen is
inactive.
-/
theorem c5_rejected_request_changes_state :
    (toggleFullscreen false emptyWorld).isFullscreen = true ∧
    (toggleFullscreen false emptyWorld).osFullscreen = false ∧
    (toggleFullscreen false emptyWorld).showControls = false := by
  decide

/--
Claim C5 amended: a rejected OS fullscreen request is caught and only
logged (nothing is thrown), but the view-mode flags have already been set
optimistically before the rejection: toggleFullscreen sets
isFullscreen = true, isVideoOnly = false and hides the controls, and
toggleVideoOnly sets isVideoOnly = isFullscreen = true and hides the
controls, even though OS fullscreen stays inactive — until the next
fullscreenchange notification resets them.
-/
theorem c5_rejection_logged_state_optimistic (w : World)
    (hos : w.osFullscreen = false) :
    ((toggleFullscreen false w).isFullscreen = true ∧
     (toggleFullscreen false w).isVideoOnly = false ∧
     (toggleFullscreen false w).showControls = false ∧
     (toggleFullscreen false w).osFullscreen = false ∧
     (toggleFullscreen false w).logged = w.logged ++ ["requestFullscreen rejected"] ∧
     (toggleFullscreen false w).thrown = w.thrown) ∧
    ((toggleVideoOnly false w).isVideoOnly = true ∧
     (toggleVideoOnly false w).isFullscreen = true ∧
     (toggleVideoOnly false w).showControls = false ∧
     (toggleVideoOnly false w).osFullscreen = false ∧
     (toggleVideoOnly false w).logged = w.logged ++ ["requestFullscreen rejected"] ∧
     (toggleVideoOnly false w).thrown = w.thrown) := by
  simp [toggleFullscreen, toggleVideoOnly, hos]

/-- Witness for the amended C5 theorem at the initial state. -/
theorem c5_witness :
    emptyWorld.osFullscreen = false ∧
    (((toggleFullscreen false emptyWorld).isFullscreen = true ∧
      (toggleFullscreen false emptyWorld).isVideoOnly = false ∧
      (toggleFullscreen false emptyWorld).showControls = false ∧
      (toggleFullscreen false emptyWorld).osFullscreen = false ∧
      (toggleFullscreen false emptyWorld).logged = emptyWorld.logged ++ ["requestFullscreen rejected"] ∧
      (toggleFullscreen false emptyWorld).thrown = emptyWorld.thrown) ∧
     ((toggleVideoOnly false emptyWorld).isVideoOnly = true ∧
      (toggleVideoOnly false emptyWorld).isFullscreen = true ∧
      (toggleVideoOnly false emptyWorld).showControls = false ∧
      (toggleVideoOnly false emptyWorld).osFullscreen = false ∧
      (toggleVideoOnly false emptyWorld).logged = emptyWorld.logged ++ ["requestFullscreen rejected"] ∧
      (toggleVideoOnly false emptyWorld).thrown = emptyWorld.thrown)) :=
  ⟨rfl, c5_rejection_logged_state_optimistic emptyWorld rfl⟩

/--
Two cinema-mode toggles with succeeding OS requests, each followed by the
fullscreenchange notification the OS fires when the fullscreen state
actually changes.
-/
def cinemaTwice (w : World) : World :=
  handleFullscreenChange (toggleVideoOnly true (handleFullscreenChange (toggleVideoOnly true w)))

/--
Claim C6: from Normal with OS fullscreen inactive, toggling cinema mode
twice (with the OS granting both requests) returns the view mode to Normal
and issues exactly one OS fullscreen-enter request and exactly one
fullscreen-exit request over the pair of calls.
-/
theorem c6_cinema_toggle_twice (w : World)
    (_hf : w.isFullscreen = false) (hv : w.isVideoOnly = false)
    (hos : w.osFullscreen = false) :
    (cinemaTwice w).isFullscreen = false ∧
    (cinemaTwice w).isVideoOnly = false ∧
    (cinemaTwice w).osFullscreen = false ∧
    (cinemaTwice w).enterFsReqs = w.enterFsReqs + 1 ∧
    (cinemaTwice w).exitFsReqs = w.exitFsReqs + 1 := by
  simp [cinemaTwice, toggleVideoOnly, handleFullscreenChange, hv, hos]

/-- Witness for the C6 theorem at the initial state. -/
theorem c6_witness :
    emptyWorld.isFullscreen = false ∧ emptyWorld.isVideoOnly = false ∧
    emptyWorld.osFullscreen = false ∧
    ((cinemaTwice emptyWorld).isFullscreen = false ∧
     (cinemaTwice emptyWorld).isVideoOnly = false ∧
     (cinemaTwice emptyWorld).osFullscreen = false ∧
     (cinemaTwice emptyWorld).enterFsReqs = emptyWorld.enterFsReqs + 1 ∧
     (cinemaTwice emptyWorld).exitFsReqs = emptyWorld.exitFsReqs + 1) :=
  ⟨rfl, rfl, rfl, c6_cinema_toggle_twice emptyWorld rfl rfl rfl⟩

/--
Claim C7: setting up the audio analysis graph is idempotent — repeating
the mount-effect body never builds a second graph and never replaces an
existing one — and the graph it builds has fftSize 256, hence a
frequencyBinCount of 128, which no later call changes.
-/
theorem c7_audio_graph_idempotent :
    (∀ m g, initAudioGraph m (initAudioGraph m g) = initAudioGraph m g) ∧
    (∀ m g0, initAudioGraph m (some g0) = some g0) ∧
    (initAudioGraph true none).map AudioGraph.frequencyBinCount = some 128 := by
  refine ⟨fun m g => ?_, fun m g0 => ?_, rfl⟩
  · cases g <;> cases m <;> simp [initAudioGraph]
  · cases m <;> simp [initAudioGraph]

/--
Claim C9: calling togglePlay with an empty playlist is a complete no-op —
the whole state, including every effect log, is returned unchanged, so no
play or pause command is issued, whatever the async outcomes would be.
-/
theorem c9_togglePlay_empty_noop (w : World) (resumeFails playFails : Bool)
    (h : w.tracks = []) :
    togglePlay resumeFails playFails w = w := by
  simp [togglePlay, h]

/-- Witness for the C9 theorem at the initial state. -/
theorem c9_witness :
    emptyWorld.tracks = [] ∧ togglePlay true true emptyWorld = emptyWorld :=
  ⟨rfl, c9_togglePlay_empty_noop emptyWorld true true rfl⟩

/-- Unfolding equation for findIndex on a cons cell. -/
lemma findIndex_cons {α : Type} (p : α → Bool) (a : α) (l : List α) :
    findIndex p (a :: l) =
      if p a then 0
      else if findIndex p l = -1 then -1 else findIndex p l + 1 := rfl

/-- A findIndex result that is a natural number points below the list length. -/
lemma findIndex_nat_lt_length {α : Type} (p : α → Bool) (l : List α) (n : ℕ)
    (h : findIndex p l = (n : Int)) : n < l.length := by
  induction l generalizing n with
  | nil =>
    simp only [findIndex] at h
    omega
  | cons a l ih =>
    rw [findIndex_cons] at h
    by_cases hp : p a
    · rw [if_pos hp] at h
      simp only [List.length_cons]
      omega
    · rw [if_neg hp] at h
      by_cases hr : findIndex p l = -1
      · rw [if_pos hr] at h
        omega
      · rw [if_neg hr] at h
        obtain ⟨m, hm⟩ : ∃ m : ℕ, n = m + 1 := ⟨n - 1, by omega⟩
        subst hm
        have hfl : findIndex p l = (m : Int) := by push_cast at h ⊢; omega
        have := ih m hfl
        simp only [List.length_cons]
        omega

/--
Dropping the elements that satisfy p keeps every position strictly before
the first satisfying position unchanged.
-/
lemma filter_not_getElem?_lt {α : Type} (p : α → Bool) (l : List α) (n : ℕ)
    (h : findIndex p l = (n : Int)) :
    ∀ k : ℕ, k < n → (l.filter (fun a => !(p a)))[k]? = l[k]? := by
  induction l generalizing n with
  | nil =>
    intro k hk
    simp only [findIndex] at h
    omega
  | cons a l ih =>
    intro k hk
    rw [findIndex_cons] at h
    by_cases hp : p a
    · rw [if_pos hp] at h
      omega
    · rw [if_neg hp] at h
      by_cases hr : findIndex p l = -1
      · rw [if_pos hr] at h
        omega
      · rw [if_neg hr] at h
        obtain ⟨m, hm⟩ : ∃ m : ℕ, n = m + 1 := ⟨n - 1, by omega⟩
        subst hm
        have hfl : findIndex p l = (m : Int) := by push_cast at h ⊢; omega
        have hkeep : (fun a => !(p a)) a = true := by simp [hp]
        cases k with
        | zero => simp [List.filter_cons, hkeep]
        | succ k =>
          have hk2 : k < m := by omega
          simpa [List.filter_cons, hkeep] using ih m hfl k hk2

/--
Dropping the elements that satisfy p strictly shrinks a list in which some
element satisfies p.
-/
lemma filter_not_length_lt {α : Type} (p : α → Bool) (l : List α) (n : ℕ)
    (h : findIndex p l = (n : Int)) :
    (l.filter (fun a => !(p a))).length < l.length := by
  induction l generalizing n with
  | nil =>
    simp only [findIndex] at h
    omega
  | cons a l ih =>
    rw [findIndex_cons] at h
    by_cases hp : p a
    · have hdrop : (fun a => !(p a)) a = false := by simp [hp]
      simp only [List.filter_cons, hdrop, if_false, List.length_cons]
      exact Nat.lt_succ_of_le (List.length_filter_le _ _)
    · rw [if_neg hp] at h
      by_cases hr : findIndex p l = -1
      · rw [if_pos hr] at h
        omega
      · rw [if_neg hr] at h
        obtain ⟨m, hm⟩ : ∃ m : ℕ, n = m + 1 := ⟨n - 1, by omega⟩
        subst hm
        have hfl : findIndex p l = (m : Int) := by push_cast at h ⊢; omega
        have hkeep : (fun a => !(p a)) a = true := by simp [hp]
        have := ih m hfl
        simp only [List.filter_cons, hkeep, if_true, List.length_cons]
        omega

/--
Claim C10: removing a track whose index is strictly greater than the
active index leaves currentTrackIndex and isPlaying unchanged, strictly
shrinks the playlist, and keeps the same logical track at the active
position.
-/
theorem c10_remove_later_track_frame (w : World) (id : String) (n c : ℕ)
    (hcur : w.currentTrackIndex = (c : Int))
    (hfind : findIndex (fun t => t.id == id) w.tracks = (n : Int))
    (hlt : c < n) :
    (removeTrack id w).currentTrackIndex = w.currentTrackIndex ∧
    (removeTrack id w).isPlaying = w.isPlaying ∧
    (removeTrack id w).tracks.length < w.tracks.length ∧
    (removeTrack id w).tracks[c]? = w.tracks[c]? := by
  have hne : ¬ (findIndex (fun t => t.id == id) w.tracks = w.currentTrackIndex) := by
    rw [hfind, hcur]
    intro hh
    omega
  have hnlt : ¬ (findIndex (fun t => t.id == id) w.tracks < w.currentTrackIndex) := by
    rw [hfind, hcur]
    intro hh
    omega
  refine ⟨?_, ?_, ?_, ?_⟩
  · simp [removeTrack, hne, hnlt]
  · simp [removeTrack, hne, hnlt]
  · simp only [removeTrack, hne, hnlt, if_neg, if_false]
    exact filter_not_length_lt (fun t => t.id == id) w.tracks n hfind
  · simp only [removeTrack, hne, hnlt, if_neg, if_false]
    exact filter_not_getElem?_lt (fun t => t.id == id) w.tracks n hfind c hlt

/-- State with two tracks, the first active and playing. -/
def worldAB : World :=
  { emptyWorld with tracks := [trackA, trackB], currentTrackIndex := 0, isPlaying := true }

/-- Witness for the C10 theorem: with [A, B] and A active, remove B. -/
theorem c10_witness :
    worldAB.currentTrackIndex = ((0 : ℕ) : Int) ∧
    findIndex (fun t => t.id == "b") worldAB.tracks = ((1 : ℕ) : Int) ∧
    0 < 1 ∧
    ((removeTrack "b" worldAB).currentTrackIndex = worldAB.currentTrackIndex ∧
     (removeTrack "b" worldAB).isPlaying = worldAB.isPlaying ∧
     (removeTrack "b" worldAB).tracks.length < worldAB.tracks.length ∧
     (removeTrack "b" worldAB).tracks[0]? = worldAB.tracks[0]?) :=
  ⟨rfl, by decide, by decide,
   c10_remove_later_track_frame worldAB "b" 1 0 rfl (by decide) (by decide)⟩

end Hyperphonic
